import Mathlib

/-!
# Verification of the auth/token core of the dicoding-gulita backend

Shallow embedding of the authentication and token-lifecycle subsystem:
`src/app/auth/service.js`, `src/app/auth/repository.js`,
`src/app/auth/handler.js`, `src/config/index.js`, the Hapi JWT strategy,
`src/utils/passwordUtils.js`, `src/utils/uuidUtils.js`, and the
`users` / `refresh_tokens` tables from the migrations.

Conventions of the embedding:
* The relational store is an explicit `Db` value (lists of rows); every
  repository operation that can mutate it returns the new store alongside
  its result, mirroring one SQL statement per call.
* JavaScript `throw` / `catch` is modelled with `Except`: each service
  method's `catch` block is reproduced by an explicit error-mapping step.
* JavaScript string falsiness (`!s` is true for `undefined` and `""`) is
  modelled by `Option String` plus `jsStrTruthy`.
* Machine-generated randomness (`crypto.randomBytes(64).toString('hex')`,
  `gen_random_uuid()`) and wall-clock time (`Date.now()`) enter the
  functions as explicit parameters.
* The external `jsonwebtoken` and `@hapi/jwt` libraries are modelled by
  `jwtSign` / `jwtVerify` / `hapiJwtVerify` over an inductive token type
  that separates structurally-signed JWTs from raw opaque strings.
-/

namespace Gulita

/-- JS truthiness for an optional string argument: `undefined` and `""`
are falsy, every other string is truthy. -/
def jsStrTruthy : Option String → Bool
  | none => false
  | some s => !s.isEmpty

/-! ## UUID utilities (`src/utils/uuidUtils.js`) -/

/-- One character class of the uuid regex
`/^[0-9a-f]{8}-[0-9a-f]{4}-[1-5][0-9a-f]{3}-[89ab][0-9a-f]{3}-[0-9a-f]{12}$/i`
at position `i` of the candidate string. -/
def uuidCharOk (i : Nat) (c : Char) : Bool :=
  if i = 8 ∨ i = 13 ∨ i = 18 ∨ i = 23 then c = '-'
  else if i = 14 then c ∈ ['1', '2', '3', '4', '5']
  else if i = 19 then c ∈ ['8', '9', 'a', 'b', 'A', 'B']
  else c.isDigit ∨ ('a' ≤ c ∧ c ≤ 'f') ∨ ('A' ≤ c ∧ c ≤ 'F')

/-- `isValidUUID` from `src/utils/uuidUtils.js`: non-empty string matching
the version-1..5, variant-89ab uuid shape, case-insensitively. -/
def isValidUUID (s : String) : Bool :=
  s.length = 36 && s.data.enum.all fun p => uuidCharOk p.1 p.2

/-- Lowercase a string character-wise (structural-recursion equivalent of
`String.toLowerCase`). -/
def strLower (s : String) : String :=
  String.mk (s.data.map Char.toLower)

/-- `validateUUID`: returns the lowercase-normalised uuid, or throws
`VALIDATION_ERROR` — callers receive it through `Except`. -/
def validateUUID (s : String) : Option String :=
  if isValidUUID s then some (strLower s) else none

/-! ## Data model: rows of the `users` and `refresh_tokens` tables -/

/-- A row of `users` (migration `create-users-table`): unique `email`,
unique `username`, `password_hash`, timestamps. -/
structure UserRow where
  id : String
  username : String
  email : String
  password_hash : String
  created_at : Nat
  updated_at : Nat
  deriving DecidableEq, Repr

/-- A row of `refresh_tokens` (migration `create-blogs-table`): unique
`token`, owning `user_id`, absolute `expires_at` (ms epoch). The uuid
primary key produced by `gen_random_uuid()` is abstracted by a counter. -/
structure RefreshRow where
  rowId : Nat
  user_id : String
  token : String
  expires_at : Nat
  created_at : Nat
  deriving DecidableEq, Repr

/-- The relational store visible to the auth core. -/
structure Db where
  users : List UserRow
  refresh_tokens : List RefreshRow
  nextRowId : Nat
  deriving Repr

/-! ## Error taxonomy

Each constructor is one distinct JS `Error` the auth core can surface,
identified by its `message` (and `code` for the postgres unique
violation). -/

inductive AuthErr where
  /-- `Error('VALIDATION_ERROR')` -/
  | validationError
  /-- `Error('EMAIL_ALREADY_EXISTS')` with `code = '23505'` -/
  | emailAlreadyExists
  /-- `Error('USERNAME_ALREADY_EXISTS')` with `code = '23505'` -/
  | usernameAlreadyExists
  /-- a raw postgres unique violation (`code '23505'`) raised at insert -/
  | uniqueViolation
  /-- `Error('USER_NOT_FOUND')` -/
  | userNotFound
  /-- `Error('INVALID_CREDENTIALS')` -/
  | invalidCredentials
  /-- `Error('INVALID_REFRESH_TOKEN')` -/
  | invalidRefreshToken
  /-- `Error('TOKEN_REQUIRED')` -/
  | tokenRequired
  /-- `Error('INVALID_TOKEN')` -/
  | invalidToken
  /-- `Error('TOKEN_EXPIRED')` -/
  | tokenExpired
  /-- `Error('DATABASE_CONNECTION_ERROR')` -/
  | databaseConnectionError
  /-- `Error('Failed to generate access token')` -/
  | generationFailed
  /-- `Error('Token verification failed')` -/
  | verificationFailed
  /-- `Error('Token refresh failed')` -/
  | refreshFailed
  /-- `Error('Login failed due to an unexpected error')` -/
  | loginFailed
  /-- `Error('Logout failed due to an unexpected error')` -/
  | logoutFailed
  /-- `Error('Logout all devices failed')` -/
  | logoutAllFailed
  /-- `Error('Registration failed due to an unexpected error')` -/
  | registrationFailed
  /-- `Error('Failed to replace refresh token - old token not found')` -/
  | replaceTokenNotFound
  /-- `Error('Failed to store refresh token')` / other repository-level
  unexpected errors re-thrown unchanged -/
  | repositoryFailure
  /-- a postgres foreign-key violation (`code '23503'`) -/
  | foreignKeyViolation
  /-- a JS `ReferenceError` (an undeclared identifier was evaluated) -/
  | jsReferenceError
  deriving DecidableEq, Repr

/-! ## Token model (`jsonwebtoken` collaborator)

A token string handed around by the code is either a raw opaque string
(e.g. the hex refresh tokens from `crypto.randomBytes(64).toString('hex')`)
or a structurally well-formed signed JWT. A JWT carries its payload,
registered claims and the secret it was signed with; `jwtVerify` accepts it
only with the matching secret, which models signature checking. -/

/-- The payload object built by `#generateAccessToken`. -/
structure Claims where
  id : String
  email : String
  username : String
  type : String
  deriving DecidableEq, Repr

/-- A token string: raw opaque text, or a signed JWT. -/
inductive TokenStr where
  | raw (s : String)
  | jwt (payload : Claims) (iss aud : String) (iat : Nat) (exp : Option Nat)
      (secret : String)
  deriving DecidableEq, Repr

/-- JS falsiness of a token-string argument: `undefined` or the empty raw
string. A structurally signed JWT serialises to a non-empty string. -/
def tokenFalsy : Option TokenStr → Bool
  | none => true
  | some (.raw s) => s.isEmpty
  | some (.jwt _ _ _ _ _ _) => false

/-- The options object `#generateAccessToken` passes to `jwt.sign`.
`expiresIn := none` models the key being present with value `undefined`
(as happens when `config.jwt.accessTokenExpiresIn` is not defined);
`some n` models a defined timespan worth `n` seconds. -/
structure SignOptions where
  expiresIn : Option Nat
  issuer : String
  audience : String
  deriving Repr

/-- `jwt.sign(payload, secret, options)` of the `jsonwebtoken` library,
with second-resolution issue time `iatSec`. The library validates its
options first: `expiresIn` must be a number of seconds or a timespan
string, so an `undefined` value makes `sign` throw
`'"expiresIn" should be a number of seconds or string representing a
timespan'` instead of producing a token. -/
def jwtSign (payload : Claims) (secret : String) (opts : SignOptions)
    (iatSec : Nat) : Except Unit TokenStr :=
  match opts.expiresIn with
  | none => .error ()
  | some e =>
    .ok (.jwt payload opts.issuer opts.audience iatSec (some (iatSec + e)) secret)

/-- Errors of `jwt.verify`, by the `name` the service's catch inspects. -/
inductive JwtVerifyErr where
  | jsonWebTokenError
  | tokenExpiredError
  deriving DecidableEq, Repr

/-- `jwt.verify(token, secret)` with no extra options, as called by
`AuthService.verifyToken`: checks structure, signature and (when present)
`exp` against the current time in seconds; it does not check issuer,
audience or a max age. -/
def jwtVerify (tok : TokenStr) (secret : String) (nowSec : Nat) :
    Except JwtVerifyErr Claims :=
  match tok with
  | .raw _ => .error .jsonWebTokenError
  | .jwt payload _ _ _ exp s =>
    if s ≠ secret then .error .jsonWebTokenError
    else
      match exp with
      | some e => if e ≤ nowSec then .error .tokenExpiredError else .ok payload
      | none => .ok payload

/-! ## Configuration (`src/config/index.js`) -/

/-- The `config.jwt` object. `secret := none` models an unset secret;
`accessTokenExpiresIn` mirrors the `config.jwt.accessTokenExpiresIn` key
that `#generateAccessToken` reads (seconds when defined). -/
structure JwtConfig where
  secret : Option String
  issuer : String
  audience : String
  accessTokenExpiresIn : Option Nat
  deriving Repr

/-- The hard-coded signing secret of `src/config/index.js`. -/
def shippedSecret : String :=
  "163ba8b12d2d47342e9d56054bb3f4eceb8b7aef0c7cc189f063e0370e7bc064"

/-- The shipped `config.jwt` of `src/config/index.js`: hard-coded secret,
issuer `gulita`, audience `urn:audience:test`, and **no**
`accessTokenExpiresIn` key. -/
def shippedJwtConfig : JwtConfig :=
  { secret := some shippedSecret
    issuer := "gulita"
    audience := "urn:audience:test"
    accessTokenExpiresIn := none }

/-! ## Password utilities (`src/utils/passwordUtils.js`)

`bcryptjs` is an external collaborator; it is modelled by an executable
one-way-hash stand-in with the contract the code relies on:
`compare(p, hash(p)) = true` and `compare(p, h) = false` otherwise. -/

/-- Model of `bcrypt.hash` (tagged injection, standing in for the salted
one-way transform). -/
def hashPassword (password : String) : String :=
  "bcrypt$" ++ password

/-- Model of `bcrypt.compare`. -/
def comparePassword (password hash : String) : Bool :=
  hash = hashPassword password

/-- A bcrypt digest is never the empty string. -/
theorem hashPassword_ne_empty (p : String) : hashPassword p ≠ "" := by
  simp [hashPassword, String.ext_iff]

/-! ## JS object values

The service/handler boundary passes ad-hoc JS objects; they are modelled
as association lists so that reads of absent keys (which yield
`undefined` in JS) are expressible. -/

inductive JsVal where
  | str (s : String)
  | num (n : Nat)
  | tokenV (t : TokenStr)
  | obj (fields : List (String × JsVal))
  | jsUndefined
  deriving Repr

/-- `true` exactly for the `undefined` value. -/
def JsVal.isJsUndefined : JsVal → Bool
  | .jsUndefined => true
  | _ => false

/-- JS member access `v.k`: an absent key (or access on a non-object)
yields `undefined`. -/
def jsGet (v : JsVal) (k : String) : JsVal :=
  match v with
  | .obj fs => ((fs.find? fun p => p.1 = k).map Prod.snd).getD .jsUndefined
  | _ => .jsUndefined

/-- The keys an object contributes to its JSON serialisation:
`JSON.stringify` drops entries whose value is `undefined`. -/
def jsonKeys (v : JsVal) : List String :=
  match v with
  | .obj fs => (fs.filter fun p => !p.2.isJsUndefined).map Prod.fst
  | _ => []

/-- The `{ password_hash, ...userWithoutPassword }` spread applied to a
row selected with `SELECT id, username, email, password_hash, created_at,
updated_at`: every selected column except `password_hash`. -/
def userViewFields (u : UserRow) : List (String × JsVal) :=
  [("id", .str u.id), ("username", .str u.username), ("email", .str u.email),
   ("created_at", .num u.created_at), ("updated_at", .num u.updated_at)]

/-! ## Repository (`src/app/auth/repository.js`)

Each function is one method of `AuthRepository`; a method whose SQL can
change the store returns the post-statement store as well (also on the
paths where the JS code throws after the statement has already
committed). -/

/-- `AuthRepository.create` (lines 14-63): guard the inputs, `INSERT INTO
users ... RETURNING id, username, email, created_at, updated_at`, then
strip `password_hash` from the returned row. The `users` table has unique
constraints on `email` and on `username`; violating either raises a
`23505` error which the method re-throws. `newId` stands for the
`uuid_generate_v4()` default. -/
def repoCreate (db : Db) (username email hashedPassword : Option String)
    (newId : String) (now : Nat) :
    Except AuthErr (List (String × JsVal) × Db) :=
  if ¬(jsStrTruthy username ∧ jsStrTruthy email ∧ jsStrTruthy hashedPassword) then
    .error .validationError
  else
    let u := username.getD ""
    let e := email.getD ""
    let h := hashedPassword.getD ""
    if db.users.any fun r => r.email = e ∨ r.username = u then
      .error .uniqueViolation
    else
      let row : UserRow :=
        { id := newId, username := u, email := e, password_hash := h
          created_at := now, updated_at := now }
      .ok ([("id", .str newId), ("username", .str u), ("email", .str e),
            ("created_at", .num now), ("updated_at", .num now)],
           { db with users := db.users ++ [row] })

/-- `AuthRepository.findByEmail` (lines 71-103): `SELECT ... WHERE
email = $1`, first row or `null`. -/
def repoFindByEmail (db : Db) (email : Option String) :
    Except AuthErr (Option UserRow) :=
  if ¬jsStrTruthy email then .error .validationError
  else .ok (db.users.find? fun r => r.email = email.getD "")

/-- `AuthRepository.findByUsername` (lines 111-143): `SELECT ... WHERE
username = $1` (the projection omits `password_hash`; callers only test
presence, so the full row is returned here), first row or `null`. -/
def repoFindByUsername (db : Db) (username : Option String) :
    Except AuthErr (Option UserRow) :=
  if ¬jsStrTruthy username then .error .validationError
  else .ok (db.users.find? fun r => r.username = username.getD "")

/-- `AuthRepository.findById` (lines 151-177): `validateUUID(id)` (throws
`VALIDATION_ERROR` for a malformed id), then `SELECT ... WHERE id = $1`
with the lowercase-normalised id. -/
def repoFindById (db : Db) (id : String) : Except AuthErr (Option UserRow) :=
  match validateUUID id with
  | none => .error .validationError
  | some v => .ok (db.users.find? fun r => r.id = v)

/-- `AuthRepository.storeRefreshToken` (lines 187-227): guard `userId` and
`token` (the `!expiresAt` guard never fires — a `Date` object is always
truthy), validate the uuid, then `INSERT INTO refresh_tokens ...`.
The unique constraint on `token` and the foreign key on `user_id` can
abort the insert with a `23xxx` error. -/
def repoStoreRefreshToken (db : Db) (userId token : Option String)
    (expiresAt now : Nat) : Except AuthErr (RefreshRow × Db) :=
  if ¬(jsStrTruthy userId ∧ jsStrTruthy token) then .error .validationError
  else
    match validateUUID (userId.getD "") with
    | none => .error .validationError
    | some uid =>
      let t := token.getD ""
      if db.refresh_tokens.any fun r => r.token = t then .error .uniqueViolation
      else if ¬ db.users.any fun r => r.id = uid then .error .foreignKeyViolation
      else
        let row : RefreshRow :=
          { rowId := db.nextRowId, user_id := uid, token := t
            expires_at := expiresAt, created_at := now }
        .ok (row, { db with refresh_tokens := db.refresh_tokens ++ [row]
                            nextRowId := db.nextRowId + 1 })

/-- `AuthRepository.findRefreshToken` (lines 234-266): `SELECT ... WHERE
token = $1`, first row or `null`. -/
def repoFindRefreshToken (db : Db) (token : Option String) :
    Except AuthErr (Option RefreshRow) :=
  if ¬jsStrTruthy token then .error .validationError
  else .ok (db.refresh_tokens.find? fun r => r.token = token.getD "")

/-- `AuthRepository.replaceRefreshToken` (lines 274-319): a single SQL
statement

```
WITH deleted AS (DELETE FROM refresh_tokens WHERE token = $1 RETURNING user_id)
INSERT INTO refresh_tokens (user_id, token, expires_at)
SELECT $2, $3, $4 WHERE EXISTS (SELECT 1 FROM deleted WHERE user_id = $2)
RETURNING ...
```

The insert fires only when the delete removed a row owned by `$2` in the
same statement. When the statement returns zero rows the method throws
`'Failed to replace refresh token - old token not found'`; the statement
itself still commits (which only matters in the owner-mismatch corner,
where the delete has removed someone else's row). A constraint violation
raised by the insert aborts and rolls back the whole statement. -/
def repoReplaceRefreshToken (db : Db) (oldToken userId token : Option String)
    (expiresAt now : Nat) : Except AuthErr RefreshRow × Db :=
  if ¬(jsStrTruthy oldToken ∧ jsStrTruthy userId ∧ jsStrTruthy token) then
    (.error .validationError, db)
  else
    match validateUUID (userId.getD "") with
    | none => (.error .validationError, db)
    | some uid =>
      let old := oldToken.getD ""
      let t := token.getD ""
      let deleted := db.refresh_tokens.filter fun r => r.token = old
      let remaining := db.refresh_tokens.filter fun r => ¬ r.token = old
      if deleted.any fun r => r.user_id = uid then
        if remaining.any fun r => r.token = t then (.error .uniqueViolation, db)
        else if ¬ db.users.any fun r => r.id = uid then
          (.error .foreignKeyViolation, db)
        else
          let row : RefreshRow :=
            { rowId := db.nextRowId, user_id := uid, token := t
              expires_at := expiresAt, created_at := now }
          (.ok row, { db with refresh_tokens := remaining ++ [row]
                              nextRowId := db.nextRowId + 1 })
      else
        (.error .replaceTokenNotFound, { db with refresh_tokens := remaining })

/-- `AuthRepository.deleteRefreshToken` (lines 326-357): `DELETE FROM
refresh_tokens WHERE token = $1`, returning whether any row was hit. -/
def repoDeleteRefreshToken (db : Db) (token : Option String) :
    Except AuthErr Bool × Db :=
  if ¬jsStrTruthy token then (.error .validationError, db)
  else
    let t := token.getD ""
    ((.ok (db.refresh_tokens.any fun r => r.token = t)),
     { db with refresh_tokens := db.refresh_tokens.filter fun r => ¬ r.token = t })

/-- `AuthRepository.deleteAllRefreshTokensForUser` (lines 364-397):
validate the uuid, then `DELETE FROM refresh_tokens WHERE user_id = $1`,
returning the row count (possibly zero). -/
def repoDeleteAllRefreshTokensForUser (db : Db) (userId : Option String) :
    Except AuthErr Nat × Db :=
  if ¬jsStrTruthy userId then (.error .validationError, db)
  else
    match validateUUID (userId.getD "") with
    | none => (.error .validationError, db)
    | some uid =>
      ((.ok (db.refresh_tokens.filter fun r => r.user_id = uid).length),
       { db with refresh_tokens := db.refresh_tokens.filter fun r => ¬ r.user_id = uid })

/-! ## Service (`src/app/auth/service.js`)

Each method's `try` body is embedded directly; its `catch` block becomes
an error-mapping function `<method>Catch` applied to every error that
escapes the body. -/

/-- Map an error through a `catch` block that re-throws the errors in
`keep` and replaces everything else with `fallback`. -/
def catchMap (keep : List AuthErr) (fallback : AuthErr) (e : AuthErr) : AuthErr :=
  if e ∈ keep then e else fallback

/-- Apply a `catch` mapping to the error of an `Except`. -/
def mapErr (f : AuthErr → AuthErr) : Except AuthErr α → Except AuthErr α
  | .error e => .error (f e)
  | .ok a => .ok a

/-- `true` for errors carrying a postgres code that starts with `'23'`
(the service's `error.code.startsWith('23')` re-throw test). -/
def errCode23 : AuthErr → Bool
  | .uniqueViolation => true
  | .emailAlreadyExists => true
  | .usernameAlreadyExists => true
  | .foreignKeyViolation => true
  | _ => false

/-- `AuthService.#generateAccessToken` (service.js lines 17-46): require
`user.id` and `user.email` truthy, require a configured secret, then
`jwt.sign` with `expiresIn := config.jwt.accessTokenExpiresIn`,
`issuer := config.jwt.issuer`, `audience := config.jwt.audience`.
The surrounding `catch` converts every failure — missing fields, missing
secret, and any error thrown by `jwt.sign` itself — into the one generic
`Error('Failed to generate access token')`. -/
def generateAccessToken (cfg : JwtConfig) (userId email username : String)
    (nowMs : Nat) : Except AuthErr TokenStr :=
  if userId.isEmpty ∨ email.isEmpty then .error .generationFailed
  else
    match cfg.secret with
    | none => .error .generationFailed
    | some sec =>
      if sec.isEmpty then .error .generationFailed
      else
        match jwtSign { id := userId, email := email, username := username, type := "access" }
            sec
            { expiresIn := cfg.accessTokenExpiresIn, issuer := cfg.issuer
              audience := cfg.audience }
            (nowMs / 1000) with
        | .error _ => .error .generationFailed
        | .ok t => .ok t

/-- `AuthService.verifyToken` (service.js lines 253-281): empty token →
`TOKEN_REQUIRED`; unset secret → generic `'Token verification failed'`
(the `'JWT secret is not configured'` message is not re-thrown by the
catch); then `jwt.verify(token, secret)` with `JsonWebTokenError` mapped
to `INVALID_TOKEN` and `TokenExpiredError` mapped to `TOKEN_EXPIRED`. -/
def verifyToken (cfg : JwtConfig) (token : Option TokenStr) (nowMs : Nat) :
    Except AuthErr Claims :=
  if tokenFalsy token then .error .tokenRequired
  else
    match cfg.secret with
    | none => .error .verificationFailed
    | some sec =>
      if sec.isEmpty then .error .verificationFailed
      else
        match jwtVerify ((token.getD (.raw ""))) sec (nowMs / 1000) with
        | .error .jsonWebTokenError => .error .invalidToken
        | .error .tokenExpiredError => .error .tokenExpired
        | .ok c => .ok c

/-- The `try` body of `AuthService.register` (service.js lines 66-106).
To expose the check/insert race, the state read by the two pre-checks
(`checkDb`) is distinguished from the state the `INSERT` runs against
(`insertDb`); a run without interference instantiates both with the same
store. `newId`/`now` stand for the generated uuid and the clock. -/
def registerTry (checkDb insertDb : Db) (username email password : Option String)
    (newId : String) (now : Nat) : Except AuthErr (List (String × JsVal) × Db) :=
  if ¬(jsStrTruthy username ∧ jsStrTruthy email ∧ jsStrTruthy password) then
    .error .validationError
  else if (password.getD "").length < 8 then .error .validationError
  else
    match repoFindByEmail checkDb email with
    | .error e => .error e
    | .ok (some _) => .error .emailAlreadyExists
    | .ok none =>
      match repoFindByUsername checkDb username with
      | .error e => .error e
      | .ok (some _) => .error .usernameAlreadyExists
      | .ok none =>
        repoCreate insertDb username email (some (hashPassword (password.getD "")))
          newId now

/-- The `catch` of `AuthService.register` (service.js lines 107-120):
re-throw `VALIDATION_ERROR`, `USER_ALREADY_EXISTS`,
`DATABASE_CONNECTION_ERROR` and every error whose `code` starts with
`'23'` (which includes the service's own duplicate errors, tagged with
`code = '23505'`); everything else becomes the generic registration
failure. -/
def registerCatch (e : AuthErr) : AuthErr :=
  if e = .validationError ∨ e = .databaseConnectionError ∨ errCode23 e then e
  else .registrationFailed

/-- `AuthService.register`. -/
def register (checkDb insertDb : Db) (username email password : Option String)
    (newId : String) (now : Nat) : Except AuthErr (List (String × JsVal) × Db) :=
  mapErr registerCatch (registerTry checkDb insertDb username email password newId now)

/-- The `try` body of `AuthService.login` (service.js lines 131-173):
validate, look the user up by email, `bcrypt.compare` the password, strip
the hash, issue the access token, generate and store the refresh token
(`freshHex` stands for `crypto.randomBytes(64).toString('hex')`), and
return `{ user, accessToken, refreshToken, expiresIn: 900 }`. -/
def loginTry (cfg : JwtConfig) (db : Db) (email password : Option String)
    (nowMs : Nat) (freshHex : String) : Except AuthErr (JsVal × Db) :=
  if ¬(jsStrTruthy email ∧ jsStrTruthy password) then .error .validationError
  else
    match repoFindByEmail db email with
    | .error e => .error e
    | .ok none => .error .userNotFound
    | .ok (some user) =>
      if ¬ comparePassword (password.getD "") user.password_hash then
        .error .invalidCredentials
      else
        match generateAccessToken cfg user.id user.email user.username nowMs with
        | .error e => .error e
        | .ok accessTok =>
          match repoStoreRefreshToken db (some user.id) (some freshHex)
              (nowMs + 7 * 24 * 60 * 60 * 1000) nowMs with
          | .error e => .error e
          | .ok (_, db1) =>
            .ok (.obj [("user", .obj (userViewFields user)),
                       ("accessToken", .tokenV accessTok),
                       ("refreshToken", .str freshHex),
                       ("expiresIn", .num (15 * 60))], db1)

/-- `AuthService.login` with its `catch` (service.js lines 174-188). -/
def login (cfg : JwtConfig) (db : Db) (email password : Option String)
    (nowMs : Nat) (freshHex : String) : Except AuthErr (JsVal × Db) :=
  mapErr (catchMap [.validationError, .userNotFound, .invalidCredentials,
    .databaseConnectionError] .loginFailed)
    (loginTry cfg db email password nowMs freshHex)

/-- `AuthService.logout` (service.js lines 198-221): a falsy
`refreshToken` argument throws `INVALID_REFRESH_TOKEN`; otherwise delete
the row and throw `INVALID_REFRESH_TOKEN` when nothing was deleted. The
`catch` re-throws `INVALID_REFRESH_TOKEN` and
`DATABASE_CONNECTION_ERROR` and wraps anything else. -/
def logout (db : Db) (refreshToken : Option String) :
    Except AuthErr Unit × Db :=
  if ¬jsStrTruthy refreshToken then (.error .invalidRefreshToken, db)
  else
    match repoDeleteRefreshToken db refreshToken with
    | (.error e, db1) =>
      (.error (catchMap [.invalidRefreshToken, .databaseConnectionError]
        .logoutFailed e), db1)
    | (.ok deleted, db1) =>
      if deleted then (.ok (), db1) else (.error .invalidRefreshToken, db1)

/-- `AuthService.logoutAllDevices` (service.js lines 228-245): a falsy
`userId` throws `VALIDATION_ERROR`; otherwise delete every refresh token
of that user (the returned count is ignored, so zero deletions still
succeed). The `catch` re-throws `VALIDATION_ERROR` (which also covers the
repository's malformed-uuid error) and `DATABASE_CONNECTION_ERROR`. -/
def logoutAllDevices (db : Db) (userId : Option String) :
    Except AuthErr Unit × Db :=
  if ¬jsStrTruthy userId then (.error .validationError, db)
  else
    match repoDeleteAllRefreshTokensForUser db userId with
    | (.error e, db1) =>
      (.error (catchMap [.validationError, .databaseConnectionError]
        .logoutAllFailed e), db1)
    | (.ok _, db1) => (.ok (), db1)

/-- The `try` body of `AuthService.refreshToken` (service.js lines
289-315). The method receives the client's refresh token but runs it
through `this.verifyToken` — the JWT **access-token** verifier — and
never consults `findRefreshToken`. After minting the new tokens it
evaluates `this.repository.replaceRefreshToken(refreshToken, ...)`
(line 305); `refreshToken` is not a declared identifier in that scope
(the parameter is named `token`), so the argument expression throws a
`ReferenceError` before the repository method is ever invoked, and the
`return` statement is unreachable. -/
def refreshTokenTry (cfg : JwtConfig) (db : Db) (token : Option TokenStr)
    (nowMs : Nat) (freshHex : String) : Except AuthErr JsVal × Db :=
  match verifyToken cfg token nowMs with
  | .error e => (.error e, db)
  | .ok decoded =>
    match repoFindById db decoded.id with
    | .error e => (.error e, db)
    | .ok none => (.error .userNotFound, db)
    | .ok (some user) =>
      match generateAccessToken cfg user.id user.email user.username nowMs with
      | .error e => (.error e, db)
      | .ok _newAccessToken =>
        let _newRefreshToken := freshHex
        (.error .jsReferenceError, db)

/-- `AuthService.refreshToken` with its `catch` (service.js lines
316-329): re-throw `INVALID_TOKEN`, `TOKEN_EXPIRED`, `USER_NOT_FOUND`,
`DATABASE_CONNECTION_ERROR`; everything else (including `TOKEN_REQUIRED`
and the `ReferenceError`) becomes `'Token refresh failed'`. -/
def refreshTokenOp (cfg : JwtConfig) (db : Db) (token : Option TokenStr)
    (nowMs : Nat) (freshHex : String) : Except AuthErr JsVal × Db :=
  let r := refreshTokenTry cfg db token nowMs freshHex
  (mapErr (catchMap [.invalidToken, .tokenExpired, .userNotFound,
    .databaseConnectionError] .refreshFailed) r.1, r.2)

/-! ## HTTP login handler (`src/app/auth/handler.js`) -/

/-- An HTTP response produced by a handler. -/
structure HttpResponse where
  code : Nat
  body : JsVal
  deriving Repr

/-- `AuthHandler.login` (handler.js lines 100-157): on success respond
`200` with `data: { user: result.user, token: result.token }` — note the
read of `result.token`, a key the service result does not carry; on
failure map the known errors to `401`/`404`/`503` and everything else to
`500`. -/
def loginHandler (cfg : JwtConfig) (db : Db) (email password : Option String)
    (nowMs : Nat) (freshHex : String) : HttpResponse × Db :=
  match login cfg db email password nowMs freshHex with
  | .ok (result, db1) =>
    ({ code := 200
       body := .obj [("status", .str "success"),
                     ("message", .str "Login successful"),
                     ("data", .obj [("user", jsGet result "user"),
                                    ("token", jsGet result "token")])] }, db1)
  | .error .invalidCredentials =>
    ({ code := 401
       body := .obj [("status", .str "error"),
                     ("message", .str "Invalid email or password"),
                     ("error", .str "INVALID_CREDENTIALS")] }, db)
  | .error .userNotFound =>
    ({ code := 404
       body := .obj [("status", .str "error"),
                     ("message", .str "User not found"),
                     ("error", .str "USER_NOT_FOUND")] }, db)
  | .error .databaseConnectionError =>
    ({ code := 503
       body := .obj [("status", .str "error"),
                     ("message", .str "Service temporarily unavailable"),
                     ("error", .str "SERVICE_UNAVAILABLE")] }, db)
  | .error _ =>
    ({ code := 500
       body := .obj [("status", .str "error"),
                     ("message", .str "An unexpected error occurred"),
                     ("error", .str "INTERNAL_SERVER_ERROR")] }, db)

/-! ## Route-level JWT verification (Hapi strategy, `src/index.js`)

The server's `jwt` auth strategy is configured with
`keys := config.jwt.secret` and
`verify := { aud, iss, sub: false, nbf: true, exp: true,
maxAgeSec: 14400, timeSkewSec: 15 }`. `hapiJwtVerify` models the
`@hapi/jwt` verification those options select: signature, audience,
issuer, not-before, expiry (both with `timeSkewSec` tolerance) and a
maximum token age measured from `iat`, independent of `exp`. -/

structure HapiVerifyOptions where
  keys : String
  aud : String
  iss : String
  nbf : Bool
  exp : Bool
  maxAgeSec : Nat
  timeSkewSec : Nat
  deriving Repr

/-- The strategy options registered in `server.auth.strategy('jwt', ...)`,
filled from the shipped config. -/
def shippedStrategy : HapiVerifyOptions :=
  { keys := shippedSecret
    aud := "urn:audience:test"
    iss := "gulita"
    nbf := true
    exp := true
    maxAgeSec := 14400
    timeSkewSec := 15 }

/-- Verification performed by the `@hapi/jwt` plugin under the given
options (the service's JWTs carry no separate `nbf` claim, so `iat`
serves as the not-before instant). -/
def hapiJwtVerify (opts : HapiVerifyOptions) (tok : TokenStr) (nowSec : Nat) :
    Bool :=
  match tok with
  | .raw _ => false
  | .jwt _ iss aud iat exp secret =>
    secret = opts.keys ∧ iss = opts.iss ∧ aud = opts.aud ∧
    (opts.nbf → iat ≤ nowSec + opts.timeSkewSec) ∧
    (opts.exp → ∀ e ∈ exp, nowSec < e + opts.timeSkewSec) ∧
    nowSec ≤ iat + opts.maxAgeSec + opts.timeSkewSec

/-! ## Concrete fixtures for scenario theorems and witnesses -/

/-- A well-formed user uuid. -/
def aliceId : String := "aaaaaaaa-aaaa-4aaa-8aaa-aaaaaaaaaaaa"

/-- A registered demonstration user whose password is `password123`. -/
def alice : UserRow :=
  { id := aliceId, username := "alice", email := "a@x.com"
    password_hash := hashPassword "password123"
    created_at := 0, updated_at := 0 }

/-- A store holding just the demonstration user. -/
def db0 : Db := { users := [alice], refresh_tokens := [], nextRowId := 1 }

/-- A `config.jwt` as in the repository's alternate config revision
(secret set, `accessTokenExpiresIn: '15m'` = 900 seconds): used wherever
a scenario needs access-token issuance to succeed. -/
def cfg15m : JwtConfig :=
  { secret := some "s3cret", issuer := "gulita"
    audience := "urn:audience:test", accessTokenExpiresIn := some 900 }

/-- A 128-hex-character refresh token of the kind
`crypto.randomBytes(64).toString('hex')` returns. -/
def rtA : String :=
  String.mk (List.replicate 124 'e' ++ ['0', '0', '0', '1'])

/-- A second fresh refresh token. -/
def rtB : String :=
  String.mk (List.replicate 124 'e' ++ ['0', '0', '0', '2'])

/-- The refresh-token row `login` stores for `alice` at t = 10^6 ms with
token `rtA` (7-day expiry). -/
def rowA : RefreshRow :=
  { rowId := 1, user_id := aliceId, token := rtA
    expires_at := 1000000 + 7 * 24 * 60 * 60 * 1000, created_at := 1000000 }

/-- The store right after that login. -/
def db1 : Db := { users := [alice], refresh_tokens := [rowA], nextRowId := 2 }

/-! ## Helper lemmas -/

theorem isEmpty_false_of_ne {s : String} (h : s ≠ "") : s.isEmpty = false := by
  cases hs : s.isEmpty
  · rfl
  · exact absurd ((String.isEmpty_iff s).mp hs) h

theorem jsStrTruthy_of_ne {s : String} (h : s ≠ "") :
    jsStrTruthy (some s) = true := by
  simp [jsStrTruthy, isEmpty_false_of_ne h]

theorem ne_empty_of_length {s : String} (h : s.length ≠ 0) : s ≠ "" :=
  fun e => h (by rw [e]; rfl)

theorem isValidUUID_length {s : String} (h : isValidUUID s = true) :
    s.length = 36 := by
  unfold isValidUUID at h
  simp only [Bool.and_eq_true, decide_eq_true_eq] at h
  exact h.1

theorem isValidUUID_ne {s : String} (h : isValidUUID s = true) : s ≠ "" :=
  ne_empty_of_length (by rw [isValidUUID_length h]; exact (by decide))

theorem validateUUID_eq {s : String} (h : isValidUUID s = true) :
    validateUUID s = some (strLower s) := by
  simp [validateUUID, h]

/-- Every error escaping `AuthService.verifyToken` is one of
`TOKEN_REQUIRED`, the generic verification failure, `INVALID_TOKEN` or
`TOKEN_EXPIRED`. -/
theorem verifyToken_error_range (cfg : JwtConfig) (tok : Option TokenStr)
    (nowMs : Nat) (e : AuthErr) (h : verifyToken cfg tok nowMs = .error e) :
    e = .tokenRequired ∨ e = .verificationFailed ∨ e = .invalidToken ∨
      e = .tokenExpired := by
  unfold verifyToken at h
  split at h
  · simp only [Except.error.injEq] at h
    exact Or.inl h.symm
  · split at h
    · simp only [Except.error.injEq] at h
      exact Or.inr (Or.inl h.symm)
    · split at h
      · simp only [Except.error.injEq] at h
        exact Or.inr (Or.inl h.symm)
      · split at h
        · simp only [Except.error.injEq] at h
          exact Or.inr (Or.inr (Or.inl h.symm))
        · simp only [Except.error.injEq] at h
          exact Or.inr (Or.inr (Or.inr h.symm))
        · simp at h

/-- The only error `AuthRepository.findById` throws (in the embedded
fragment) is the malformed-uuid `VALIDATION_ERROR`. -/
theorem repoFindById_error_range (db : Db) (id : String) (e : AuthErr)
    (h : repoFindById db id = .error e) : e = .validationError := by
  unfold repoFindById at h
  split at h
  · simp only [Except.error.injEq] at h
    exact h.symm
  · simp at h

/-- Every failure of `#generateAccessToken` surfaces as the one generic
`'Failed to generate access token'` error. -/
theorem generateAccessToken_error_range (cfg : JwtConfig)
    (uid em un : String) (nowMs : Nat) (e : AuthErr)
    (h : generateAccessToken cfg uid em un nowMs = .error e) :
    e = .generationFailed := by
  unfold generateAccessToken at h
  split at h
  · simp only [Except.error.injEq] at h
    exact h.symm
  · split at h
    · simp only [Except.error.injEq] at h
      exact h.symm
    · split at h
      · simp only [Except.error.injEq] at h
        exact h.symm
      · split at h
        · simp only [Except.error.injEq] at h
          exact h.symm
        · simp at h

/-! ## Claim theorems -/

/-- C4: the claim states that access-token issuance, given a user with
`id` and `email`, produces a signed token with claims
`{id, email, username, type:"access"}`, expiry = issuance + 15 minutes,
and the fixed issuer/audience — and that an unset signing secret yields a
configuration error. On the shipped `src/config/index.js` this fails:
`#generateAccessToken` passes `config.jwt.accessTokenExpiresIn` to
`jwt.sign`, but the shipped config defines no such key, so option
validation in `jsonwebtoken` rejects the `undefined` value and every
invocation ends in the generic `'Failed to generate access token'` —
no token, no 15-minute expiry, and no distinct configuration error (the
unset-secret message is swallowed by the same catch). Under a config
that does carry the 15-minute value the intended token shape appears
(final conjunct). -/
theorem C4_accessToken_issuance_fails_on_shipped_config :
    (∀ uid em un nowMs,
       generateAccessToken shippedJwtConfig uid em un nowMs
         = .error .generationFailed) ∧
    shippedJwtConfig.accessTokenExpiresIn = none ∧
    (∀ uid em un nowMs,
       generateAccessToken { shippedJwtConfig with secret := none } uid em un nowMs
         = .error .generationFailed) ∧
    generateAccessToken cfg15m aliceId "a@x.com" "alice" 1000000
      = .ok (.jwt
          { id := aliceId, email := "a@x.com", username := "alice", type := "access" }
          "gulita" "urn:audience:test" 1000 (some 1900) "s3cret") := by
  refine ⟨?_, rfl, ?_, rfl⟩
  · intro uid em un nowMs
    unfold generateAccessToken
    split
    · rfl
    · simp [shippedJwtConfig, shippedSecret, jwtSign]
  · intro uid em un nowMs
    unfold generateAccessToken
    split
    · rfl
    · rfl

/-- The object `AuthService.login` returns for the demonstration login
(`alice`, t = 10^6 ms, fresh token `rtA`, alternate-config jwt
settings). -/
def loginResultA : JsVal :=
  .obj [("user", .obj (userViewFields alice)),
        ("accessToken", .tokenV (.jwt
          { id := aliceId, email := "a@x.com", username := "alice", type := "access" }
          "gulita" "urn:audience:test" 1000 (some 1900) "s3cret")),
        ("refreshToken", .str rtA),
        ("expiresIn", .num 900)]

set_option maxRecDepth 8192 in
/-- C1: the claimed rotation round-trip does not exist in the code. After
a successful login stores the opaque refresh token `rtA`, calling
`AuthService.refreshToken` with `rtA` does not mint a new pair: the
method runs the opaque token through the JWT access-token verifier
(`this.verifyToken`), which throws `JsonWebTokenError`, surfaced as
`INVALID_TOKEN` — the stored token is never looked up, never rotated, and
the store is left unchanged. (The login uses the alternate-config jwt
settings so that token issuance itself succeeds.) -/
theorem C1_refresh_roundtrip_broken :
    login cfg15m db0 (some "a@x.com") (some "password123") 1000000 rtA
      = .ok (loginResultA, db1) ∧
    rowA ∈ db1.refresh_tokens ∧ rowA.token = rtA ∧
    refreshTokenOp cfg15m db1 (some (.raw rtA)) 2000000 rtB
      = (.error .invalidToken, db1) := by
  exact ⟨rfl, by simp [db1], rfl, rfl⟩

/-- C2: the claim describes the refresh flow of the spec — missing token
→ `ValidationError`, stored token not found or expired →
`InvalidRefreshToken`, owner gone → `UserNotFound`. The code's refresh
never produces `INVALID_REFRESH_TOKEN` (it never consults the stored
tokens) and can never succeed (line 305 evaluates the undeclared
identifier `refreshToken`, a `ReferenceError` caught into the generic
`'Token refresh failed'`): every outcome is one of `INVALID_TOKEN`,
`TOKEN_EXPIRED`, `USER_NOT_FOUND` or the generic failure. Concretely, a
missing token yields the generic failure (not `VALIDATION_ERROR`) and an
unknown opaque token yields `INVALID_TOKEN` (not
`INVALID_REFRESH_TOKEN`). -/
theorem C2_refresh_error_taxonomy_diverges :
    (∀ cfg db tok nowMs fresh,
       (refreshTokenOp cfg db tok nowMs fresh).1
         ∈ ([.error .invalidToken, .error .tokenExpired, .error .userNotFound,
             .error .refreshFailed] : List (Except AuthErr JsVal))) ∧
    refreshTokenOp cfg15m db1 none 2000000 rtB
      = (.error .refreshFailed, db1) ∧
    refreshTokenOp cfg15m db1 (some (.raw "this-is-a-completely-invalid-token"))
        2000000 rtB
      = (.error .invalidToken, db1) := by
  refine ⟨?_, rfl, rfl⟩
  intro cfg db tok nowMs fresh
  unfold refreshTokenOp refreshTokenTry
  cases hv : verifyToken cfg tok nowMs with
  | error e =>
    rcases verifyToken_error_range cfg tok nowMs e hv with rfl | rfl | rfl | rfl <;>
      simp [mapErr, catchMap]
  | ok decoded =>
    cases hf : repoFindById db decoded.id with
    | error e =>
      rcases repoFindById_error_range db decoded.id e hf with rfl
      simp [hf, mapErr, catchMap]
    | ok ou =>
      cases ou with
      | none => simp [hf, mapErr, catchMap]
      | some user =>
        cases hg : generateAccessToken cfg user.id user.email user.username nowMs with
        | error e =>
          rcases generateAccessToken_error_range cfg user.id user.email
            user.username nowMs e hg with rfl
          simp [hf, hg, mapErr, catchMap]
        | ok t => simp [hf, hg, mapErr, catchMap]

/-- `logout` with a missing token argument. -/
theorem logout_missing (db : Db) :
    logout db none = (.error .invalidRefreshToken, db) := rfl

/-- `logout` with a token that is not in the store. -/
theorem logout_not_found (db : Db) (t : String) (ht : t ≠ "")
    (hmiss : ∀ r ∈ db.refresh_tokens, r.token ≠ t) :
    logout db (some t) = (.error .invalidRefreshToken, db) := by
  have hany : (db.refresh_tokens.any fun r => r.token = t) = false := by
    simp only [List.any_eq_false, decide_eq_true_eq]
    exact hmiss
  have hfil : (db.refresh_tokens.filter fun r => !decide (r.token = t))
      = db.refresh_tokens := by
    rw [List.filter_eq_self]
    intro r hr
    simpa using hmiss r hr
  unfold logout repoDeleteRefreshToken
  simp [jsStrTruthy_of_ne ht, hany, hfil]

/-- The store after any `logout` with a truthy token: exactly the rows
with that token are gone, everything else is untouched. -/
theorem logout_state (db : Db) (t : String) (ht : t ≠ "") :
    (logout db (some t)).2
      = { db with refresh_tokens :=
            db.refresh_tokens.filter fun r => ¬ r.token = t } := by
  unfold logout repoDeleteRefreshToken
  cases hany : db.refresh_tokens.any fun r => r.token = t <;>
    simp [jsStrTruthy_of_ne ht, hany]

/-- `logout` succeeds when the token is present. -/
theorem logout_found (db : Db) (t : String) (ht : t ≠ "")
    (hhit : ∃ r ∈ db.refresh_tokens, r.token = t) :
    (logout db (some t)).1 = .ok () := by
  have hany : (db.refresh_tokens.any fun r => r.token = t) = true := by
    simp only [List.any_eq_true, decide_eq_true_eq]
    exact hhit
  unfold logout repoDeleteRefreshToken
  simp [jsStrTruthy_of_ne ht, hany]

/-- C8: `AuthService.logout` deletes exactly the named refresh token and
fails with `INVALID_REFRESH_TOKEN` (a typed `Except` error, not a crash)
when the token is absent — including a second logout with the same token
right after a successful one — and a missing token argument also yields
`INVALID_REFRESH_TOKEN` rather than success. -/
theorem C8_logout_exact_delete_and_typed_failure :
    (∀ db, logout db none = (.error .invalidRefreshToken, db)) ∧
    (∀ db t, t ≠ "" → (∀ r ∈ db.refresh_tokens, r.token ≠ t) →
       logout db (some t) = (.error .invalidRefreshToken, db)) ∧
    (∀ db t, t ≠ "" →
       (logout db (some t)).2.refresh_tokens
         = db.refresh_tokens.filter (fun r => ¬ r.token = t) ∧
       (logout db (some t)).2.users = db.users) ∧
    (∀ db t, t ≠ "" → (∃ r ∈ db.refresh_tokens, r.token = t) →
       (logout db (some t)).1 = .ok () ∧
       (logout (logout db (some t)).2 (some t)).1
         = .error .invalidRefreshToken) := by
  refine ⟨logout_missing, logout_not_found, ?_, ?_⟩
  · intro db t ht
    rw [logout_state db t ht]
    exact ⟨rfl, rfl⟩
  · intro db t ht hhit
    refine ⟨logout_found db t ht hhit, ?_⟩
    have h2 := logout_not_found (logout db (some t)).2 t ht ?_
    · rw [h2]
    · rw [logout_state db t ht]
      intro r hr
      simp only [List.mem_filter, decide_eq_true_eq] at hr
      simpa using hr.2

/-- `logoutAllDevices` with a missing user id. -/
theorem logoutAllDevices_missing (db : Db) :
    logoutAllDevices db none = (.error .validationError, db) := rfl

/-- `logoutAllDevices` with a well-formed user id always succeeds and
removes exactly the tokens owned by the (normalised) id. -/
theorem logoutAllDevices_state (db : Db) (uid : String)
    (h : isValidUUID uid = true) :
    logoutAllDevices db (some uid)
      = (.ok (), { db with refresh_tokens :=
            db.refresh_tokens.filter fun r => ¬ r.user_id = strLower uid }) := by
  unfold logoutAllDevices repoDeleteAllRefreshTokensForUser
  simp [jsStrTruthy_of_ne (isValidUUID_ne h), validateUUID_eq h]

/-- C9: `AuthService.logoutAllDevices` fails with `VALIDATION_ERROR` when
the user id is missing; for a well-formed user id it succeeds (also when
zero rows match), removes every refresh token owned by that user, and
leaves the user table and every refresh token owned by any other user
untouched. -/
theorem C9_logoutAllDevices_removes_only_owned_tokens :
    (∀ db, logoutAllDevices db none = (.error .validationError, db)) ∧
    (∀ db uid, isValidUUID uid = true →
       (logoutAllDevices db (some uid)).1 = .ok () ∧
       (logoutAllDevices db (some uid)).2.users = db.users ∧
       (logoutAllDevices db (some uid)).2.refresh_tokens
         = db.refresh_tokens.filter (fun r => ¬ r.user_id = strLower uid) ∧
       (∀ r ∈ (logoutAllDevices db (some uid)).2.refresh_tokens,
          r.user_id ≠ strLower uid) ∧
       (∀ r ∈ db.refresh_tokens, r.user_id ≠ strLower uid →
          r ∈ (logoutAllDevices db (some uid)).2.refresh_tokens)) := by
  refine ⟨logoutAllDevices_missing, ?_⟩
  intro db uid h
  rw [logoutAllDevices_state db uid h]
  refine ⟨rfl, rfl, rfl, ?_, ?_⟩
  · intro r hr
    simp only [List.mem_filter, decide_eq_true_eq] at hr
    simpa using hr.2
  · intro r hr hne
    simp only [List.mem_filter, decide_eq_true_eq]
    exact ⟨hr, by simpa using hne⟩

/-- Witness for C8: concrete double logout of the stored token `rtA`. -/
theorem C8_witness :
    (logout db1 (some rtA)).1 = .ok () ∧
    (logout (logout db1 (some rtA)).2 (some rtA)).1
      = .error .invalidRefreshToken :=
  C8_logout_exact_delete_and_typed_failure.2.2.2 db1 rtA (by decide)
    ⟨rowA, by simp [db1], rfl⟩

/-- Witness for C9: concrete logout-all for the demonstration user. -/
theorem C9_witness :
    (logoutAllDevices db1 (some aliceId)).1 = .ok () ∧
    (logoutAllDevices db1 (some aliceId)).2.refresh_tokens
      = db1.refresh_tokens.filter (fun r => ¬ r.user_id = strLower aliceId) := by
  have h := C9_logoutAllDevices_removes_only_owned_tokens.2 db1 aliceId (by decide)
  exact ⟨h.1, h.2.2.1⟩

/-- A second well-formed user uuid. -/
def bobId : String := "bbbbbbbb-bbbb-4bbb-9bbb-bbbbbbbbbbbb"

/-- An empty store. -/
def dbEmpty : Db := { users := [], refresh_tokens := [], nextRowId := 1 }

/-- `register` when some input field is missing. -/
theorem register_missing_field (checkDb insertDb : Db)
    (username email password : Option String) (newId : String) (now : Nat)
    (h : username = none ∨ email = none ∨ password = none) :
    register checkDb insertDb username email password newId now
      = .error .validationError := by
  unfold register registerTry
  have hc : ¬(jsStrTruthy username = true ∧ jsStrTruthy email = true ∧
      jsStrTruthy password = true) := by
    rcases h with rfl | rfl | rfl <;> simp [jsStrTruthy]
  rw [if_pos hc]
  rfl

/-- `register` when the password is shorter than 8 characters. -/
theorem register_short_password (checkDb insertDb : Db)
    (username email : Option String) (p : String) (newId : String) (now : Nat)
    (hp : p.length < 8) :
    register checkDb insertDb username email (some p) newId now
      = .error .validationError := by
  unfold register registerTry
  split
  · rfl
  · rw [if_pos (show ((some p).getD "").length < 8 from hp)]
    rfl

/-- `register` on a store with no colliding user: the happy path. -/
theorem register_success (db : Db) (username email password newId : String)
    (now : Nat) (hu : username ≠ "") (he : email ≠ "")
    (hp : 8 ≤ password.length)
    (hne : ∀ u ∈ db.users, u.email ≠ email)
    (hnu : ∀ u ∈ db.users, u.username ≠ username) :
    register db db (some username) (some email) (some password) newId now
      = .ok ([("id", .str newId), ("username", .str username),
              ("email", .str email), ("created_at", .num now),
              ("updated_at", .num now)],
             { db with users := db.users ++
                 [{ id := newId, username := username, email := email
                    password_hash := hashPassword password
                    created_at := now, updated_at := now }] }) := by
  have hpne : password ≠ "" := ne_empty_of_length (by omega)
  have hlt : ¬ password.length < 8 := Nat.not_lt.mpr hp
  have hfe : (db.users.find? fun r => r.email = email) = none := by
    rw [List.find?_eq_none]
    intro u hu'
    simpa using hne u hu'
  have hfu : (db.users.find? fun r => r.username = username) = none := by
    rw [List.find?_eq_none]
    intro u hu'
    simpa using hnu u hu'
  have hnex : ¬ ∃ x ∈ db.users, x.email = email ∨ x.username = username := by
    rintro ⟨u, hu', h | h⟩
    exacts [hne u hu' h, hnu u hu' h]
  unfold register registerTry repoFindByEmail repoFindByUsername repoCreate
  simp [jsStrTruthy_of_ne hu, jsStrTruthy_of_ne he, jsStrTruthy_of_ne hpne,
    jsStrTruthy_of_ne (hashPassword_ne_empty password), hlt, hfe, hfu, hnex,
    mapErr]

/-- C6: `AuthService.register` with all three fields present, a password
of length at least 8 and no existing user with that email or username
succeeds, and the returned user object carries exactly the columns
`id, username, email, created_at, updated_at` — never the password hash;
with any missing field or a shorter password it fails with
`VALIDATION_ERROR`. -/
theorem C6_register_valid_inputs :
    (∀ db username email password newId now,
       username ≠ "" → email ≠ "" → 8 ≤ String.length password →
       (∀ u ∈ db.users, u.email ≠ email) →
       (∀ u ∈ db.users, u.username ≠ username) →
       ∃ fields db2,
         register db db (some username) (some email) (some password) newId now
           = .ok (fields, db2) ∧
         fields.map Prod.fst
           = ["id", "username", "email", "created_at", "updated_at"] ∧
         "password_hash" ∉ fields.map Prod.fst) ∧
    (∀ checkDb insertDb username email password newId now,
       username = none ∨ email = none ∨ password = none →
       register checkDb insertDb username email password newId now
         = .error .validationError) ∧
    (∀ checkDb insertDb username email p newId now, String.length p < 8 →
       register checkDb insertDb username email (some p) newId now
         = .error .validationError) := by
  refine ⟨?_, register_missing_field, register_short_password⟩
  intro db username email password newId now hu he hp hne hnu
  refine ⟨_, _, register_success db username email password newId now hu he hp hne hnu,
    by simp, by simp⟩

/-- Witness for C6: registering `bob` on the store that holds `alice`. -/
theorem C6_witness :
    ∃ fields db2,
      register db0 db0 (some "bob") (some "b@x.com") (some "password123")
          bobId 5 = .ok (fields, db2) ∧
      fields.map Prod.fst
        = ["id", "username", "email", "created_at", "updated_at"] ∧
      "password_hash" ∉ fields.map Prod.fst :=
  C6_register_valid_inputs.1 db0 "bob" "b@x.com" "password123" bobId 5
    (by decide) (by decide) (by decide) (by decide) (by decide)

/-- C7: with an already-used email, `register` fails with the
email-variant duplicate error for every username (the email pre-check
runs first); and when both pre-checks pass against the state they read
but the insert hits a store-level uniqueness violation (check/insert
race), the violation is propagated (its `code` starts with `'23'`), not
swallowed. -/
theorem C7_duplicate_email_and_insert_race :
    (∀ db username email password newId now,
       username ≠ "" → email ≠ "" → 8 ≤ String.length password →
       (∃ u ∈ db.users, u.email = email) →
       register db db (some username) (some email) (some password) newId now
         = .error .emailAlreadyExists) ∧
    (∀ checkDb insertDb username email password newId now,
       username ≠ "" → email ≠ "" → 8 ≤ String.length password →
       (∀ u ∈ checkDb.users, u.email ≠ email) →
       (∀ u ∈ checkDb.users, u.username ≠ username) →
       (∃ u ∈ insertDb.users, u.email = email ∨ u.username = username) →
       register checkDb insertDb (some username) (some email) (some password)
           newId now = .error .uniqueViolation) := by
  constructor
  · intro db username email password newId now hun hen hp hex
    have hpne : password ≠ "" := ne_empty_of_length (by omega)
    have hlt : ¬ password.length < 8 := Nat.not_lt.mpr hp
    unfold register registerTry repoFindByEmail
    simp only [Option.getD_some]
    cases hf : db.users.find? fun r => r.email = email with
    | none =>
      exfalso
      rw [List.find?_eq_none] at hf
      obtain ⟨u, hu, hue⟩ := hex
      exact hf u hu (by simpa using hue)
    | some v =>
      simp [jsStrTruthy_of_ne hun, jsStrTruthy_of_ne hen,
        jsStrTruthy_of_ne hpne, hlt, hf, mapErr, registerCatch, errCode23]
  · intro checkDb insertDb username email password newId now hun hen hp hne hnu hex
    have hpne : password ≠ "" := ne_empty_of_length (by omega)
    have hlt : ¬ password.length < 8 := Nat.not_lt.mpr hp
    have hfe : (checkDb.users.find? fun r => r.email = email) = none := by
      rw [List.find?_eq_none]
      intro u hu'
      simpa using hne u hu'
    have hfu : (checkDb.users.find? fun r => r.username = username) = none := by
      rw [List.find?_eq_none]
      intro u hu'
      simpa using hnu u hu'
    unfold register registerTry repoFindByEmail repoFindByUsername repoCreate
    simp [jsStrTruthy_of_ne hun, jsStrTruthy_of_ne hen,
      jsStrTruthy_of_ne hpne,
      jsStrTruthy_of_ne (hashPassword_ne_empty password), hlt, hfe, hfu, hex,
      mapErr, registerCatch, errCode23]

/-- Witness for C7: a colliding email (with a colliding username as well)
against the store that holds `alice`, and a check/insert race where the
pre-checks ran against an empty snapshot. -/
theorem C7_witness :
    register db0 db0 (some "alice") (some "a@x.com") (some "password999")
        bobId 5 = .error .emailAlreadyExists ∧
    register dbEmpty db0 (some "zoe") (some "a@x.com") (some "password999")
        bobId 5 = .error .uniqueViolation := by
  constructor
  · exact C7_duplicate_email_and_insert_race.1 db0 "alice" "a@x.com"
      "password999" bobId 5 (by decide) (by decide) (by decide)
      ⟨alice, by simp [db0], rfl⟩
  · exact C7_duplicate_email_and_insert_race.2 dbEmpty db0 "zoe" "a@x.com"
      "password999" bobId 5 (by decide) (by decide) (by decide)
      (by intro u hu; simp [dbEmpty] at hu) (by intro u hu; simp [dbEmpty] at hu)
      ⟨alice, by simp [db0], Or.inl rfl⟩

/-- The shipped secret string is non-empty. -/
theorem shippedSecret_not_empty : shippedSecret.isEmpty = false := by decide

/-- C5: access-token verification. At the service level
(`AuthService.verifyToken`): an empty/missing token fails with
`TOKEN_REQUIRED`, a malformed (non-JWT) or wrongly-signed token fails
with `INVALID_TOKEN`, and a past-expiry token fails with `TOKEN_EXPIRED`.
At the route level, the Hapi `jwt` strategy (the cited strategy options)
verifies signature, issuer `gulita`, audience `urn:audience:test`,
not-before and expiry with a 15-second clock-skew tolerance, and
enforces a 14400-second (4-hour) maximum age measured from `iat` — so a
token older than that ceiling is rejected no matter how distant its own
`exp` is. -/
theorem C5_access_token_verification :
    (∀ nowMs, verifyToken shippedJwtConfig none nowMs = .error .tokenRequired ∧
       verifyToken shippedJwtConfig (some (.raw "")) nowMs
         = .error .tokenRequired) ∧
    (∀ s nowMs, s ≠ "" →
       verifyToken shippedJwtConfig (some (.raw s)) nowMs
         = .error .invalidToken) ∧
    (∀ payload iss aud iat exp sec nowMs, sec ≠ shippedSecret →
       verifyToken shippedJwtConfig (some (.jwt payload iss aud iat exp sec))
           nowMs = .error .invalidToken) ∧
    (∀ payload iss aud iat e nowMs, e ≤ nowMs / 1000 →
       verifyToken shippedJwtConfig
           (some (.jwt payload iss aud iat (some e) shippedSecret)) nowMs
         = .error .tokenExpired) ∧
    shippedStrategy.timeSkewSec = 15 ∧
    shippedStrategy.maxAgeSec = 14400 ∧
    (∀ payload iss aud iat exp sec nowSec,
       hapiJwtVerify shippedStrategy (.jwt payload iss aud iat exp sec) nowSec
           = true →
       sec = shippedSecret ∧ iss = "gulita" ∧ aud = "urn:audience:test" ∧
       iat ≤ nowSec + 15 ∧ (∀ e ∈ exp, nowSec < e + 15) ∧
       nowSec ≤ iat + 14400 + 15) ∧
    (∀ payload iat exp nowSec, iat + 14415 < nowSec →
       hapiJwtVerify shippedStrategy
           (.jwt payload "gulita" "urn:audience:test" iat exp shippedSecret)
           nowSec = false) := by
  refine ⟨fun nowMs => ⟨rfl, rfl⟩, ?_, ?_, ?_, rfl, rfl, ?_, ?_⟩
  · intro s nowMs hs
    simp [verifyToken, tokenFalsy, isEmpty_false_of_ne hs, jwtVerify,
      shippedJwtConfig, shippedSecret_not_empty]
  · intro payload iss aud iat exp sec nowMs hsec
    simp [verifyToken, tokenFalsy, jwtVerify, shippedJwtConfig,
      shippedSecret_not_empty, hsec]
  · intro payload iss aud iat e nowMs he
    simp [verifyToken, tokenFalsy, jwtVerify, shippedJwtConfig,
      shippedSecret_not_empty, he]
  · intro payload iss aud iat exp sec nowSec h
    simp only [hapiJwtVerify, shippedStrategy, decide_eq_true_eq] at h
    obtain ⟨h1, h2, h3, h4, h5, h6⟩ := h
    exact ⟨h1, h2, h3, h4 trivial, fun e he => h5 trivial e he, h6⟩
  · intro payload iat exp nowSec h
    simp only [hapiJwtVerify, shippedStrategy, decide_eq_false_iff_not]
    intro hc
    exact absurd hc.2.2.2.2.2 (by omega)

/-- The claims payload used in concrete verification witnesses. -/
def demoClaims : Claims :=
  { id := aliceId, email := "a@x.com", username := "alice", type := "access" }

/-- Witness for C5: the hypothesis-bearing parts at concrete tokens. -/
theorem C5_witness :
    verifyToken shippedJwtConfig (some (.raw "not-a-jwt")) 1000000
      = .error .invalidToken ∧
    verifyToken shippedJwtConfig
        (some (.jwt demoClaims "gulita" "urn:audience:test" 0 (some 10)
          "wrong-secret")) 5000000 = .error .invalidToken ∧
    verifyToken shippedJwtConfig
        (some (.jwt demoClaims "gulita" "urn:audience:test" 0 (some 1)
          shippedSecret)) 5000000 = .error .tokenExpired ∧
    (demoClaims.type = "access" ∧ "gulita" = "gulita" ∧
      "urn:audience:test" = "urn:audience:test" ∧ (100 : Nat) ≤ 500 + 15 ∧
      (∀ e ∈ (some 1000 : Option Nat), (500 : Nat) < e + 15) ∧
      (500 : Nat) ≤ 100 + 14400 + 15) ∧
    hapiJwtVerify shippedStrategy
        (.jwt demoClaims "gulita" "urn:audience:test" 0 (some 1000000000)
          shippedSecret) 20000 = false := by
  refine ⟨?_, ?_, ?_, ?_, ?_⟩
  · exact C5_access_token_verification.2.1 "not-a-jwt" 1000000 (by decide)
  · exact C5_access_token_verification.2.2.1 demoClaims "gulita"
      "urn:audience:test" 0 (some 10) "wrong-secret" 5000000 (by decide)
  · exact C5_access_token_verification.2.2.2.1 demoClaims "gulita"
      "urn:audience:test" 0 1 5000000 (by decide)
  · have h := C5_access_token_verification.2.2.2.2.2.2.1 demoClaims "gulita"
      "urn:audience:test" 100 (some 1000) shippedSecret 500 (by decide)
    exact ⟨rfl, h.2.1, h.2.2.1, h.2.2.2.1, h.2.2.2.2.1, h.2.2.2.2.2⟩
  · exact C5_access_token_verification.2.2.2.2.2.2.2 demoClaims 0
      (some 1000000000) 20000 (by decide)

/-- The shape of every successful `loginTry` result: the object built at
service.js lines 168-173. -/
theorem loginTry_ok_shape (cfg : JwtConfig) (db : Db)
    (email password : Option String) (nowMs : Nat) (fresh : String)
    (a : JsVal × Db) (h : loginTry cfg db email password nowMs fresh = .ok a) :
    ∃ u tok db2,
      a = (JsVal.obj [("user", .obj (userViewFields u)),
        ("accessToken", .tokenV tok), ("refreshToken", .str fresh),
        ("expiresIn", .num (15 * 60))], db2) := by
  unfold loginTry at h
  split at h
  · simp at h
  · split at h
    · simp at h
    · simp at h
    · split at h
      · simp at h
      · split at h
        · simp at h
        · split at h
          · simp at h
          · exact ⟨_, _, _, (by injection h with h2; exact h2.symm)⟩

/-- The result object of every successful `AuthService.login`. -/
theorem login_ok_shape (cfg : JwtConfig) (db : Db)
    (email password : Option String) (nowMs : Nat) (fresh : String)
    (result : JsVal) (db2 : Db)
    (h : login cfg db email password nowMs fresh = .ok (result, db2)) :
    ∃ uview tok,
      result = .obj [("user", .obj uview), ("accessToken", .tokenV tok),
        ("refreshToken", .str fresh), ("expiresIn", .num (15 * 60))] := by
  unfold login mapErr at h
  cases hx : loginTry cfg db email password nowMs fresh with
  | error e =>
    rw [hx] at h
    simp at h
  | ok a =>
    rw [hx] at h
    obtain ⟨u, tok, db3, ha⟩ := loginTry_ok_shape _ _ _ _ _ _ _ hx
    simp only [Except.ok.injEq] at h
    rw [ha] at h
    obtain ⟨h1, _⟩ := Prod.mk.injEq .. ▸ h
    exact ⟨userViewFields u, tok, h1.symm⟩

/-- C10: on every successful login, the HTTP login handler responds `200`
with `data = { user: result.user, token: result.token }`, where
`result.token` is a key the service result never carries (the service
returns `accessToken`, `refreshToken` and `expiresIn`): the `token` read
is `undefined`, the serialised `data` object keeps only `user`, and the
issued access token, refresh token and `expiresIn` are absent from the
response. -/
theorem C10_login_response_omits_tokens (cfg : JwtConfig) (db : Db)
    (email password : Option String) (nowMs : Nat) (fresh : String)
    (result : JsVal) (db2 : Db)
    (h : login cfg db email password nowMs fresh = .ok (result, db2)) :
    (loginHandler cfg db email password nowMs fresh).1.code = 200 ∧
    jsGet (jsGet (loginHandler cfg db email password nowMs fresh).1.body
      "data") "token" = .jsUndefined ∧
    jsonKeys (jsGet (loginHandler cfg db email password nowMs fresh).1.body
      "data") = ["user"] ∧
    "accessToken" ∉ jsonKeys (jsGet
      (loginHandler cfg db email password nowMs fresh).1.body "data") ∧
    "refreshToken" ∉ jsonKeys (jsGet
      (loginHandler cfg db email password nowMs fresh).1.body "data") ∧
    "expiresIn" ∉ jsonKeys (jsGet
      (loginHandler cfg db email password nowMs fresh).1.body "data") ∧
    jsGet (jsGet (loginHandler cfg db email password nowMs fresh).1.body
      "data") "user" = jsGet result "user" := by
  obtain ⟨uview, tok, hshape⟩ :=
    login_ok_shape cfg db email password nowMs fresh result db2 h
  unfold loginHandler
  rw [h]
  subst hshape
  refine ⟨rfl, ?_, ?_, ?_, ?_, ?_, rfl⟩ <;>
    simp [jsGet, jsonKeys, JsVal.isJsUndefined]

set_option maxRecDepth 8192 in
/-- Witness for C10: the demonstration login. -/
theorem C10_witness :
    (loginHandler cfg15m db0 (some "a@x.com") (some "password123")
        1000000 rtA).1.code = 200 ∧
    jsonKeys (jsGet (loginHandler cfg15m db0 (some "a@x.com")
        (some "password123") 1000000 rtA).1.body "data") = ["user"] := by
  have h := C10_login_response_omits_tokens cfg15m db0 (some "a@x.com")
    (some "password123") 1000000 rtA loginResultA db1 rfl
  exact ⟨h.1, h.2.2.1⟩

/-- C3: `AuthRepository.replaceRefreshToken` is atomic and conditional on
the old token. A new refresh-token row is inserted exactly when the
single SQL statement also deleted the old row (same owner); the result
store then is the old store minus the old token plus the one new row.
When the old token is no longer present (already consumed or deleted),
the call fails with the `'old token not found'` error and the token
store is left unchanged — no orphan row is created. -/
theorem C3_replaceRefreshToken_atomic :
    (∀ db old uid t expMs now res db2,
       repoReplaceRefreshToken db (some old) (some uid) (some t) expMs now
         = (.ok res, db2) →
       (∃ r ∈ db.refresh_tokens, r.token = old ∧ r.user_id = strLower uid) ∧
       db2.refresh_tokens
         = (db.refresh_tokens.filter fun r => ¬ r.token = old) ++ [res]) ∧
    (∀ db old uid t expMs now,
       old ≠ "" → t ≠ "" → isValidUUID uid = true →
       (∀ r ∈ db.refresh_tokens, r.token ≠ old) →
       repoReplaceRefreshToken db (some old) (some uid) (some t) expMs now
         = (.error .replaceTokenNotFound, db)) := by
  constructor
  · intro db old uid t expMs now res db2 h
    unfold repoReplaceRefreshToken at h
    simp only [Option.getD_some] at h
    split at h
    · simp at h
    · split at h
      · simp at h
      · next vuid heq =>
        have hv : vuid = strLower uid := by
          by_cases hval : isValidUUID uid = true
          · rw [validateUUID_eq hval] at heq
            exact (Option.some_inj.mp heq).symm
          · unfold validateUUID at heq
            rw [if_neg (by simpa using hval)] at heq
            cases heq
        subst hv
        by_cases hdel : ((db.refresh_tokens.filter fun r => r.token = old).any
            fun r => r.user_id = strLower uid) = true
        · rw [if_pos hdel] at h
          by_cases hdup : ((db.refresh_tokens.filter fun r => ¬ r.token = old).any
              fun r => r.token = t) = true
          · rw [if_pos hdup] at h
            simp at h
          · rw [if_neg hdup] at h
            by_cases hfk : ¬(db.users.any fun r => r.id = strLower uid) = true
            · rw [if_pos hfk] at h
              simp at h
            · rw [if_neg hfk] at h
              simp only [Prod.mk.injEq, Except.ok.injEq] at h
              obtain ⟨hres, hdb⟩ := h
              constructor
              · rw [List.any_eq_true] at hdel
                obtain ⟨r, hr, hru⟩ := hdel
                rw [List.mem_filter] at hr
                exact ⟨r, hr.1, by simpa using hr.2, by simpa using hru⟩
              · rw [← hdb, ← hres]
        · rw [if_neg hdel] at h
          simp at h
  · intro db old uid t expMs now hold ht hval hmiss
    have hfilnil : (db.refresh_tokens.filter fun r => r.token = old) = [] := by
      rw [List.filter_eq_nil_iff]
      intro r hr
      simpa using hmiss r hr
    have hfilself : (db.refresh_tokens.filter fun r => !decide (r.token = old))
        = db.refresh_tokens := by
      rw [List.filter_eq_self]
      intro r hr
      simpa using hmiss r hr
    unfold repoReplaceRefreshToken
    simp [Option.getD_some, jsStrTruthy_of_ne hold, jsStrTruthy_of_ne ht,
      jsStrTruthy_of_ne (isValidUUID_ne hval), validateUUID_eq hval,
      hfilnil, hfilself]

/-- Witness for C3: replacing the absent token `rtB` in the demonstration
store fails and leaves the store unchanged. -/
theorem C3_witness :
    repoReplaceRefreshToken db1 (some rtB) (some aliceId) (some "ffnew")
        7000 6000 = (.error .replaceTokenNotFound, db1) :=
  C3_replaceRefreshToken_atomic.2 db1 rtB aliceId "ffnew" 7000 6000
    (by decide) (by decide) (by decide) (by decide)

end Gulita
